import Mathlib

/-!
Verification of the OLIDS patient explorer core logic: medication status
derivation, medication summary counting, query filter construction, patient
search disambiguation, date-range resolution, row-count limits and the
error-handling shape of each retrieval operation.

Timestamps are modelled as integers (days); `today`/`now` is passed
explicitly where the source reads the current clock.
-/

namespace Olids

/-- The five display statuses of `calculate_medication_status`
(src/page_modules/medications.py). -/
inductive MedStatus where
  | Current
  | Cancelled
  | Expired
  | Past
  | Unknown
deriving DecidableEq, Repr

/-- A medication row as seen by `calculate_medication_status`: each date/number
field is `none` when NULL (`pd.isna`), `some none` when present but malformed
(so that parsing it raises), and `some (some v)` when present and parsing to
`v`.  `STATEMENT_IS_ACTIVE` is a nullable boolean. -/
structure MedRow where
  cancellation_date : Option (Option Int)
  expiry_date : Option (Option Int)
  statement_is_active : Option Bool
  clinical_effective_date : Option (Option Int)
  duration_days : Option (Option Int)
deriving DecidableEq, Repr

/-- The final block of `calculate_medication_status` (lines 63-74): if both
`CLINICAL_EFFECTIVE_DATE` and `DURATION_DAYS` are present, compare `today`
with `start_date + timedelta(days=duration_days)`; a parse failure raises
(`Except.error`); otherwise fall through to `return "Current"`. -/
def medStatusDuration (today : Int) (row : MedRow) : Except Unit MedStatus :=
  match row.clinical_effective_date, row.duration_days with
  | some (some start_date), some (some duration_days) =>
    if today ≤ start_date + duration_days then Except.ok MedStatus.Current
    else Except.ok MedStatus.Expired
  | some none, some _ => Except.error ()
  | some _, some none => Except.error ()
  | _, _ => Except.ok MedStatus.Current

/-- Line 59-61 of `calculate_medication_status`: a present-and-false
`STATEMENT_IS_ACTIVE` yields `"Past"`, else continue. -/
def medStatusActive (today : Int) (row : MedRow) : Except Unit MedStatus :=
  match row.statement_is_active with
  | some false => Except.ok MedStatus.Past
  | _ => medStatusDuration today row

/-- Lines 53-57 of `calculate_medication_status`: a present `EXPIRY_DATE`
strictly before `today` yields `"Expired"`, else continue; a malformed
present date raises. -/
def medStatusExpiry (today : Int) (row : MedRow) : Except Unit MedStatus :=
  match row.expiry_date with
  | some (some expiry_date) =>
    if expiry_date < today then Except.ok MedStatus.Expired
    else medStatusActive today row
  | some none => Except.error ()
  | none => medStatusActive today row

/-- The body of `calculate_medication_status` inside its `try:` block
(src/page_modules/medications.py lines 44-74), starting with lines 47-51: a
present `CANCELLATION_DATE` not after `today` yields `"Cancelled"`, else
continue; any raised exception surfaces as `Except.error`. -/
def medStatusCore (today : Int) (row : MedRow) : Except Unit MedStatus :=
  match row.cancellation_date with
  | some (some cancellation_date) =>
    if cancellation_date ≤ today then Except.ok MedStatus.Cancelled
    else medStatusExpiry today row
  | some none => Except.error ()
  | none => medStatusExpiry today row

/-- `calculate_medication_status` (src/page_modules/medications.py lines
34-76): the `try`/`except` wrapper maps any exception to `"Unknown"`. -/
def calculate_medication_status (today : Int) (row : MedRow) : MedStatus :=
  match medStatusCore today row with
  | Except.ok s => s
  | Except.error _ => MedStatus.Unknown

/-- A medication row all of whose present fields are well-formed, as the
spec's §4.4 input: `cancellationDate?`, `expiryDate?`, `statementIsActive?`,
`clinicalEffectiveDate?`, `durationDays?`. -/
structure CleanMedRow where
  cancellationDate : Option Int
  expiryDate : Option Int
  statementIsActive : Option Bool
  clinicalEffectiveDate : Option Int
  durationDays : Option Int
deriving DecidableEq, Repr

/-- Inject a well-formed row into the raw row type. -/
def CleanMedRow.toMedRow (r : CleanMedRow) : MedRow where
  cancellation_date := r.cancellationDate.map some
  expiry_date := r.expiryDate.map some
  statement_is_active := r.statementIsActive
  clinical_effective_date := r.clinicalEffectiveDate.map some
  duration_days := r.durationDays.map some

/-- The spec's §4.4 ordered decision list, written from the spec's words:
rule 1 cancellation, rule 2 expiry, rule 3 inactive statement, rule 4
duration window, rule 5 default Current. -/
def specMedicationStatus (today : Int) (r : CleanMedRow) : MedStatus :=
  if ∃ c, r.cancellationDate = some c ∧ c ≤ today then
    MedStatus.Cancelled
  else if ∃ e, r.expiryDate = some e ∧ e < today then
    MedStatus.Expired
  else if r.statementIsActive = some false then
    MedStatus.Past
  else if r.clinicalEffectiveDate.isSome ∧ r.durationDays.isSome then
    if today ≤ (r.clinicalEffectiveDate.getD 0) + (r.durationDays.getD 0) then
      MedStatus.Current
    else
      MedStatus.Expired
  else
    MedStatus.Current

example : calculate_medication_status 10 (CleanMedRow.toMedRow ⟨some 5, some 3, some true, some 0, some 4⟩) = MedStatus.Cancelled := by decide
example : calculate_medication_status 10 (CleanMedRow.toMedRow ⟨none, some 3, some true, some 0, some 20⟩) = MedStatus.Expired := by decide
example : calculate_medication_status 10 (CleanMedRow.toMedRow ⟨none, none, some false, some 0, some 20⟩) = MedStatus.Past := by decide
example : calculate_medication_status 10 (CleanMedRow.toMedRow ⟨none, none, none, some 0, some 10⟩) = MedStatus.Current := by decide
example : calculate_medication_status 10 (CleanMedRow.toMedRow ⟨none, none, none, some 0, some 9⟩) = MedStatus.Expired := by decide
example : calculate_medication_status 10 (CleanMedRow.toMedRow ⟨none, none, none, none, none⟩) = MedStatus.Current := by decide
example : calculate_medication_status 10 ⟨some none, none, none, none, none⟩ = MedStatus.Unknown := by decide

/-- On a well-formed row the duration block never raises and computes the
inclusive duration window. -/
lemma medStatusDuration_clean (today : Int) (r : CleanMedRow) :
    medStatusDuration today r.toMedRow =
      Except.ok
        (if r.clinicalEffectiveDate.isSome ∧ r.durationDays.isSome then
          (if today ≤ r.clinicalEffectiveDate.getD 0 + r.durationDays.getD 0 then
            MedStatus.Current
          else MedStatus.Expired)
        else MedStatus.Current) := by
  rcases r with ⟨c, e, a, s, d⟩
  rcases s with _ | s <;> rcases d with _ | d <;>
    simp [medStatusDuration, CleanMedRow.toMedRow, apply_ite Except.ok]

/-- On a well-formed row the active-flag block never raises. -/
lemma medStatusActive_clean (today : Int) (r : CleanMedRow) :
    medStatusActive today r.toMedRow =
      Except.ok
        (if r.statementIsActive = some false then MedStatus.Past
        else if r.clinicalEffectiveDate.isSome ∧ r.durationDays.isSome then
          (if today ≤ r.clinicalEffectiveDate.getD 0 + r.durationDays.getD 0 then
            MedStatus.Current
          else MedStatus.Expired)
        else MedStatus.Current) := by
  have hdur := medStatusDuration_clean today r
  rcases ha : r.statementIsActive with _ | b
  · simp only [medStatusActive, CleanMedRow.toMedRow, ha] at hdur ⊢
    rw [hdur]
    simp [ha]
  · cases b
    · simp [medStatusActive, CleanMedRow.toMedRow, ha]
    · simp only [medStatusActive, CleanMedRow.toMedRow, ha] at hdur ⊢
      rw [hdur]
      simp [ha]

/-- On a well-formed row the expiry block never raises. -/
lemma medStatusExpiry_clean (today : Int) (r : CleanMedRow) :
    medStatusExpiry today r.toMedRow =
      Except.ok
        (if ∃ e, r.expiryDate = some e ∧ e < today then MedStatus.Expired
        else if r.statementIsActive = some false then MedStatus.Past
        else if r.clinicalEffectiveDate.isSome ∧ r.durationDays.isSome then
          (if today ≤ r.clinicalEffectiveDate.getD 0 + r.durationDays.getD 0 then
            MedStatus.Current
          else MedStatus.Expired)
        else MedStatus.Current) := by
  have hact := medStatusActive_clean today r
  rcases he : r.expiryDate with _ | e
  · simp only [medStatusExpiry, CleanMedRow.toMedRow, he, Option.map_none] at hact ⊢
    rw [hact]
    simp [he]
  · simp only [medStatusExpiry, CleanMedRow.toMedRow, he, Option.map_some] at hact ⊢
    by_cases hlt : e < today
    · simp [hlt]
    · simp at hact
      simp [hlt, hact]

/-- On every well-formed row the code's status function computes the spec's
§4.4 decision list. -/
lemma calc_status_eq_spec (today : Int) (r : CleanMedRow) :
    calculate_medication_status today r.toMedRow = specMedicationStatus today r := by
  have hexp := medStatusExpiry_clean today r
  rcases hc : r.cancellationDate with _ | c
  · simp only [calculate_medication_status, medStatusCore, CleanMedRow.toMedRow,
      hc, Option.map_none] at hexp ⊢
    rw [hexp]
    simp [specMedicationStatus, hc]
  · simp only [calculate_medication_status, medStatusCore, CleanMedRow.toMedRow,
      hc, Option.map_some] at hexp ⊢
    by_cases hle : c ≤ today
    · simp [hle, specMedicationStatus, hc]
    · simp at hexp
      simp [hle, hexp, specMedicationStatus, hc]

/-- **C1.** For every well-formed medication row, `calculate_medication_status`
evaluates the spec's §4.4 ordered decision list with first-matching-rule-wins
semantics (cancellation, then expiry, then inactive statement, then the
inclusive duration window, then the Current default), and its output on any
row is always one of Current, Cancelled, Expired, Past, Unknown. -/
theorem medication_status_matches_spec_decision_list :
    (∀ (today : Int) (r : CleanMedRow),
      calculate_medication_status today r.toMedRow = specMedicationStatus today r) ∧
    (∀ (today : Int) (row : MedRow),
      calculate_medication_status today row = MedStatus.Current ∨
      calculate_medication_status today row = MedStatus.Cancelled ∨
      calculate_medication_status today row = MedStatus.Expired ∨
      calculate_medication_status today row = MedStatus.Past ∨
      calculate_medication_status today row = MedStatus.Unknown) := by
  constructor
  · exact calc_status_eq_spec
  · intro today row
    rcases h : calculate_medication_status today row with _ | _ | _ | _ | _ <;> simp

/-- **C3.** A row whose only populated fields are the clinical effective date
and the duration, evaluated on the day `start + duration` itself, derives
status Current: the duration boundary `today <= end_date` is inclusive. -/
theorem medication_duration_boundary_inclusive :
    ∀ (start duration : Int),
      calculate_medication_status (start + duration)
        (CleanMedRow.toMedRow ⟨none, none, none, some start, some duration⟩) =
        MedStatus.Current := by
  intro start duration
  simp [calculate_medication_status, medStatusCore, medStatusExpiry,
    medStatusActive, medStatusDuration, CleanMedRow.toMedRow]

/-- The CASE expression whose COUNT is `active_medications` in
`get_medication_summary` (src/services/record_service.py lines 135-142),
as a per-joined-row predicate under SQL three-valued logic: `COUNT` counts
the rows where the CASE yields 1 (the last WHEN); earlier WHENs yield NULL,
and so does the missing ELSE.  A NULL `clinical_effective_date` propagates
through `DATEADD` and makes the comparison not-true. -/
def sqlActiveMedication (today : Int) (r : CleanMedRow) : Bool :=
  if (match r.cancellationDate with
      | some c => decide (c ≤ today)
      | none => false) then false
  else if (match r.expiryDate with
      | some e => decide (e < today)
      | none => false) then false
  else if r.statementIsActive = some false then false
  else match r.clinicalEffectiveDate, r.durationDays with
    | some start, some dur => decide (today < start + dur)
    | _, _ => false

/-- `active_medications` returned by `get_medication_summary`: the number of
joined medication rows the CASE counts. -/
def get_medication_summary_active_count (today : Int) (rows : List CleanMedRow) : Nat :=
  (rows.filter (sqlActiveMedication today)).length

/-- The number of rows the per-row derivation of the medications page marks
Current. -/
def perRowCurrentCount (today : Int) (rows : List CleanMedRow) : Nat :=
  (rows.filter (fun r =>
    decide (calculate_medication_status today r.toMedRow = MedStatus.Current))).length

example : sqlActiveMedication 0 ⟨none, none, none, none, none⟩ = false := by decide
example : sqlActiveMedication 0 ⟨none, none, none, some 0, some 1⟩ = true := by decide
example : sqlActiveMedication 0 ⟨none, none, none, some 0, some 0⟩ = false := by decide
example : calculate_medication_status 0 (CleanMedRow.toMedRow ⟨none, none, none, some 0, some 0⟩) = MedStatus.Current := by decide

set_option maxHeartbeats 1600000 in
/-- Row-level characterisation of the summary CASE against the spec decision
list: a row is counted iff the decision list derives Current through a
strictly unexpired duration window. -/
lemma sqlActive_eq_spec (today : Int) (r : CleanMedRow) :
    sqlActiveMedication today r =
      (decide (specMedicationStatus today r = MedStatus.Current) &&
        (match r.clinicalEffectiveDate, r.durationDays with
          | some start, some dur => decide (today < start + dur)
          | _, _ => false)) := by
  rcases r with ⟨c, e, a, s, d⟩
  rcases c with _ | c <;> rcases e with _ | e <;> rcases s with _ | s <;> rcases d with _ | d <;>
    simp only [sqlActiveMedication, specMedicationStatus] <;>
    split_ifs <;> simp_all <;> omega

/-- **C2 counterexample.** A patient with a single medication order carrying
no statement fields, no effective date and no duration: the per-row
derivation (rule 5 default) marks it Current, but the summary CASE counts
nothing, so the summary `current` count differs from the per-row count. -/
theorem medication_summary_count_not_per_row :
    get_medication_summary_active_count 0 [⟨none, none, none, none, none⟩] ≠
      perRowCurrentCount 0 [⟨none, none, none, none, none⟩] := by decide

/-- **C2 (amended).** The summary `current` count is computed by a separate
SQL CASE, not the per-row rules: it counts exactly the rows whose per-row
derived status is Current AND which carry both a clinical effective date and
a duration whose window is strictly unexpired (`today < start + duration`);
rows that are Current by the rule-5 default, or Current on the inclusive
boundary day itself, are not counted. -/
theorem medication_summary_counts_strict_duration_window :
    ∀ (today : Int) (rows : List CleanMedRow),
      get_medication_summary_active_count today rows =
        (rows.filter (fun r =>
          decide (calculate_medication_status today r.toMedRow = MedStatus.Current) &&
          (match r.clinicalEffectiveDate, r.durationDays with
            | some start, some dur => decide (today < start + dur)
            | _, _ => false))).length := by
  intro today rows
  unfold get_medication_summary_active_count
  congr 1
  apply List.filter_congr
  intro r _
  rw [sqlActive_eq_spec, calc_status_eq_spec]

/-- `DATE_RANGE_OPTIONS` (src/config.py lines 40-43). -/
def DATE_RANGE_OPTIONS : List (String × Option Int) :=
  [("Last 12 months", some 365), ("All time", none)]

/-- `PAST_MEDICATIONS_DATE_RANGE_OPTIONS` (src/config.py lines 46-50). -/
def PAST_MEDICATIONS_DATE_RANGE_OPTIONS : List (String × Option Int) :=
  [("90 days", some 90), ("1 year", some 365), ("All", none)]

/-- Python `dict.get(key)`: `none` both for an absent key and for a key
mapped to `None` (the "all time" sentinel). -/
def dictGet (table : List (String × Option Int)) (key : String) : Option Int :=
  match table.find? (fun kv => kv.1 == key) with
  | some kv => kv.2
  | none => none

/-- `calculate_date_range` (src/services/record_service.py lines 247-267). -/
def calculate_date_range (today : Int) (range_option : String) :
    Option Int × Option Int :=
  match dictGet DATE_RANGE_OPTIONS range_option with
  | none => (none, none)
  | some days => (some (today - days), some today)

/-- `calculate_past_medications_date_range` (src/page_modules/medications.py
lines 13-31): same resolution against the medication-specific table. -/
def calculate_past_medications_date_range (today : Int) (range_option : String) :
    Option Int × Option Int :=
  match dictGet PAST_MEDICATIONS_DATE_RANGE_OPTIONS range_option with
  | none => (none, none)
  | some days => (some (today - days), some today)

example : calculate_date_range 1000 "All time" = (none, none) := by decide
example : calculate_past_medications_date_range 1000 "90 days" = (some 910, some 1000) := by decide

/-- **C9.** Date-range resolution maps the null sentinel to `(null, null)` and
a label mapped to `days` to `(today - days, today)`, for both option tables. -/
theorem date_range_resolution (today : Int) (label : String) (days : Int) :
    (dictGet DATE_RANGE_OPTIONS label = none →
      calculate_date_range today label = (none, none)) ∧
    (dictGet DATE_RANGE_OPTIONS label = some days →
      calculate_date_range today label = (some (today - days), some today)) ∧
    (dictGet PAST_MEDICATIONS_DATE_RANGE_OPTIONS label = none →
      calculate_past_medications_date_range today label = (none, none)) ∧
    (dictGet PAST_MEDICATIONS_DATE_RANGE_OPTIONS label = some days →
      calculate_past_medications_date_range today label = (some (today - days), some today)) := by
  refine ⟨?_, ?_, ?_, ?_⟩ <;> intro h <;>
    simp [calculate_date_range, calculate_past_medications_date_range, h]

/-- Witness for C9: "All time" maps to the sentinel in the general table and
"90 days" maps to 90 in the past-medications table. -/
theorem date_range_resolution_witness :
    calculate_date_range 1000 "All time" = (none, none) ∧
    calculate_past_medications_date_range 1000 "90 days" = (some 910, some 1000) := by
  constructor
  · exact (date_range_resolution 1000 "All time" 0).1 (by decide)
  · exact (date_range_resolution 1000 "90 days" 90).2.2.2 (by decide)

/-- `MAX_OBSERVATIONS` (src/config.py line 37): the single configured row
ceiling. -/
def MAX_OBSERVATIONS : Nat := 10000

/-- LIMIT clause of the observations query (record_service.py line 107). -/
def get_patient_observations_limit : Option Nat := some MAX_OBSERVATIONS

/-- LIMIT clause of the medications query (record_service.py line 236). -/
def get_patient_medications_limit : Option Nat := some MAX_OBSERVATIONS

/-- LIMIT clause of the appointments query (record_service.py line 386). -/
def get_patient_appointments_limit : Option Nat := some MAX_OBSERVATIONS

/-- The patient-search queries (patient_service.py lines 26-59) carry no
LIMIT clause. -/
def search_patient_limit : Option Nat := none

/-- The registration-history query (patient_service.py lines 123-142) carries
no LIMIT clause. -/
def get_patient_registration_history_limit : Option Nat := none

/-- The condition-register (LTC summary) query (patient_service.py lines
176-192) carries no LIMIT clause. -/
def get_patient_ltc_summary_limit : Option Nat := none

/-- The three aggregate summary queries (record_service.py lines 24-31,
130-147, 283-294) carry no LIMIT clause. -/
def summary_queries_limit : Option Nat := none

/-- SQL `ORDER BY ... DESC LIMIT n` semantics on the descending-ordered
result list: keep the first `n` rows (the most recent); no LIMIT keeps
everything. -/
def applyLimit (limit : Option Nat) (rows : List α) : List α :=
  match limit with
  | some n => rows.take n
  | none => rows

/-- **C4 parameters.** `def get_patient_medications(person_id, date_from=None,
date_to=None, search_term="")` (src/services/record_service.py line 176)
declares exactly these parameters — no `current_only`. -/
def get_patient_medications_params : List String :=
  ["person_id", "date_from", "date_to", "search_term"]

/-- The keyword arguments of both calls the medications page makes
(src/page_modules/medications.py lines 190-196 and 226-232), which include
`current_only=True` resp. `current_only=False`. -/
def render_medications_call_kwargs : List String :=
  ["date_from", "date_to", "search_term", "current_only"]

/-- Python call semantics for keyword arguments: the call raises `TypeError`
("got an unexpected keyword argument") before the callee body — and hence
before any query-level `try`/`except` — runs, unless every keyword names a
declared parameter. -/
def pythonKwargsAccepted (params kwargs : List String) : Bool :=
  kwargs.all (fun k => params.contains k)

/-- **C4 (code bug).** The medications page invokes
`get_patient_medications(..., current_only=...)`, but the function does not
declare a `current_only` parameter, so every such invocation raises
`TypeError` instead of returning a result set. -/
theorem get_patient_medications_rejects_current_only :
    pythonKwargsAccepted get_patient_medications_params
      render_medications_call_kwargs = false := by decide

/-- **C5 counterexample.** A patient with 10,001 registration periods: the
registration-history query has no LIMIT clause, so the result exceeds the
configured ceiling — the cap does not apply to every list-returning query. -/
theorem registration_history_exceeds_row_cap :
    ¬ (applyLimit get_patient_registration_history_limit
        (List.replicate 10001 (0 : Int))).length ≤ MAX_OBSERVATIONS := by
  rw [show applyLimit get_patient_registration_history_limit
        (List.replicate 10001 (0 : Int)) = List.replicate 10001 (0 : Int) from rfl]
  rw [List.length_replicate]
  rw [show MAX_OBSERVATIONS = 10000 from rfl]
  omega

/-- **C5 (amended).** The single configured ceiling (10,000) caps the three
clinical record list queries — observations, medications, appointments —
truncating the descending-ordered result to its first (most recent) 10,000
rows without erroring; the summary/aggregate queries are uncapped, but so are
patient search, registration history and the condition register. -/
theorem row_cap_applies_to_clinical_record_queries :
    get_patient_observations_limit = some MAX_OBSERVATIONS ∧
    get_patient_medications_limit = some MAX_OBSERVATIONS ∧
    get_patient_appointments_limit = some MAX_OBSERVATIONS ∧
    search_patient_limit = none ∧
    get_patient_registration_history_limit = none ∧
    get_patient_ltc_summary_limit = none ∧
    summary_queries_limit = none ∧
    MAX_OBSERVATIONS = 10000 ∧
    (∀ (rows : List Int),
      (applyLimit (some MAX_OBSERVATIONS) rows).length ≤ MAX_OBSERVATIONS ∧
      applyLimit (some MAX_OBSERVATIONS) rows = rows.take MAX_OBSERVATIONS) := by
  refine ⟨rfl, rfl, rfl, rfl, rfl, rfl, rfl, rfl, ?_⟩
  intro rows
  refine ⟨?_, rfl⟩
  simp [applyLimit]

/-- The WHERE-clause date predicate `get_patient_appointments` builds
(src/services/record_service.py lines 338-352), applied to a row's
`start_date`: with `include_future` and a `date_from`, the from-clause is the
disjunction `a.start_date >= date_from OR a.start_date > CURRENT_DATE()`;
otherwise `a.start_date >= date_from` when `date_from` is set; a `date_to`
bound `a.start_date <= date_to` is always conjoined afterwards. -/
def appointmentDateFilter (now : Int) (date_from date_to : Option Int)
    (include_future : Bool) (start_date : Int) : Bool :=
  (match include_future, date_from with
    | true, some df => decide (df ≤ start_date) || decide (now < start_date)
    | _, _ =>
      match date_from with
      | some df => decide (df ≤ start_date)
      | none => true) &&
  (match date_to with
    | some dt => decide (start_date ≤ dt)
    | none => true)

example : appointmentDateFilter 0 (some (-100)) none true 1 = true := by decide
example : appointmentDateFilter 0 (some (-100)) (some 5) true 6 = false := by decide
example : appointmentDateFilter 0 (some 3) none false 1 = false := by decide

/-- **C6.** With `include_future` and a `date_from` but no `date_to`, the
appointment date filter is exactly the disjunction `start >= date_from OR
start > now`; in particular an appointment dated tomorrow (`now + 1`) always
matches, whatever `date_from` is. -/
theorem appointments_future_inclusion_disjunction :
    (∀ (now df start : Int),
      appointmentDateFilter now (some df) none true start =
        (decide (df ≤ start) || decide (now < start))) ∧
    (∀ (now df : Int),
      appointmentDateFilter now (some df) none true (now + 1) = true) := by
  constructor
  · intro now df start
    simp [appointmentDateFilter]
  · intro now df
    simp [appointmentDateFilter]

/-- **C10.** With `include_future` set, the disjunction only lifts the
`date_from` lower bound: the `date_to` upper bound is still conjoined, so any
appointment starting strictly after `date_to` is filtered out. -/
theorem appointments_date_to_still_bounds_future :
    ∀ (now df dt start : Int), dt < start →
      appointmentDateFilter now (some df) (some dt) true start = false := by
  intro now df dt start h
  simp [appointmentDateFilter]
  omega

/-- Witness for C10: `now = 0`, `date_from = -10` (the past), `date_to = 5`,
and a future appointment at `start = 6 > date_to` is excluded. -/
theorem appointments_date_to_still_bounds_future_witness :
    appointmentDateFilter 0 (some (-10)) (some 5) true 6 = false :=
  appointments_date_to_still_bounds_future 0 (-10) 5 6 (by decide)

/-- Digit-string parsing: the digits of the decimal core of Python `int(...)`;
`none` when empty or containing a non-digit. -/
def digitsToNat (l : List Char) : Option Nat :=
  if l ≠ [] ∧ l.all Char.isDigit then
    some (l.foldl (fun acc ch => acc * 10 + (ch.toNat - 48)) 0)
  else none

/-- `str.strip()` whitespace stripping, as `int(...)` applies before
parsing. -/
def stripWhitespace (l : List Char) : List Char :=
  ((l.dropWhile Char.isWhitespace).reverse.dropWhile Char.isWhitespace).reverse

/-- `int(search_term)` in `search_patient`: optional surrounding whitespace,
an optional sign, then decimal digits; anything else raises `ValueError`
(`none`). -/
def pyInt (s : String) : Option Int :=
  match stripWhitespace s.toList with
  | '+' :: rest => (digitsToNat rest).map Int.ofNat
  | '-' :: rest => (digitsToNat rest).map (fun n => -(n : Int))
  | l => (digitsToNat l).map Int.ofNat

/-- A row of the person dimension table, with the two alternate keys used by
`search_patient`. -/
structure PersonRow where
  person_id : String
  sk_patient_id : Int
deriving DecidableEq, Repr

/-- The WHERE clause `search_patient` builds (src/services/patient_service.py
lines 23-59): when `int(search_term)` succeeds,
`sk_patient_id = {search_int} OR person_id = '{search_term}'`; on
`ValueError`, `person_id = '{search_term}'` alone. -/
def search_patient_matches (search_term : String) (p : PersonRow) : Bool :=
  match pyInt search_term with
  | some search_int =>
    decide (p.sk_patient_id = search_int) || decide (p.person_id = search_term)
  | none => decide (p.person_id = search_term)

/-- `search_patient` over the person dimension table: the rows satisfying the
built WHERE clause. -/
def search_patient (search_term : String) (table : List PersonRow) :
    List PersonRow :=
  table.filter (search_patient_matches search_term)

example : pyInt "12345" = some 12345 := by decide
example : pyInt "ABC123" = none := by decide
example : pyInt "" = none := by decide
example : search_patient "7" [⟨"A", 7⟩, ⟨"7", 9⟩, ⟨"B", 8⟩] = [⟨"A", 7⟩, ⟨"7", 9⟩] := by decide

/-- **C7.** Patient search disambiguates by integer parse: a row is returned
iff it is in the table and — when the term parses as an integer — its numeric
surrogate key equals the parsed value or its natural identifier equals the
term, and otherwise — when parsing raises `ValueError` — its natural
identifier equals the term; a digit string takes the numeric branch, a
non-numeric string the fallback branch, and empty input or no match gives an
empty result rather than an error. -/
theorem search_patient_integer_disambiguation :
    (∀ (term : String) (table : List PersonRow) (p : PersonRow),
      p ∈ search_patient term table ↔
        p ∈ table ∧
          ((∃ n, pyInt term = some n ∧ (p.sk_patient_id = n ∨ p.person_id = term)) ∨
            (pyInt term = none ∧ p.person_id = term))) ∧
    pyInt "12345" = some 12345 ∧
    pyInt "ABC123" = none ∧
    pyInt "" = none ∧
    (∀ (table : List PersonRow),
      (∀ p ∈ table, p.person_id ≠ "") → search_patient "" table = []) := by
  refine ⟨?_, by decide, by decide, by decide, ?_⟩
  · intro term table p
    rw [search_patient, List.mem_filter]
    rcases h : pyInt term with _ | n <;>
      simp [search_patient_matches, h]
  · intro table htable
    rw [search_patient, List.filter_eq_nil_iff]
    intro p hp
    simp [search_patient_matches, show pyInt "" = none from by decide]
    exact htable p hp

/-- Witness for C7: a numeric term matched via the surrogate key, and an
empty term on a table without empty identifiers returning nothing. -/
theorem search_patient_integer_disambiguation_witness :
    (⟨"A", 12345⟩ : PersonRow) ∈ search_patient "12345" [⟨"A", 12345⟩] ∧
    search_patient "" [(⟨"P1", 5⟩ : PersonRow)] = [] := by
  constructor
  · exact (search_patient_integer_disambiguation.1 "12345" [⟨"A", 12345⟩]
      ⟨"A", 12345⟩).2 ⟨by simp, Or.inl ⟨12345, by decide, Or.inl rfl⟩⟩
  · exact search_patient_integer_disambiguation.2.2.2.2 [⟨"P1", 5⟩] (by decide)

/-- The `try`/`except` around the observations query
(src/services/record_service.py lines 110-115): a raised exception is caught,
surfaced via `st.error` (the returned message), and the caller gets an empty
frame. -/
def get_patient_observations_result (exec : Except String (List A)) :
    List A × Option String :=
  match exec with
  | Except.ok rows => (rows, none)
  | Except.error e => ([], some ("Error loading observations: " ++ e))

/-- The `try`/`except` around the medications query (record_service.py lines
239-244). -/
def get_patient_medications_result (exec : Except String (List A)) :
    List A × Option String :=
  match exec with
  | Except.ok rows => (rows, none)
  | Except.error e => ([], some ("Error loading medications: " ++ e))

/-- The `try`/`except` around the appointments query (record_service.py lines
389-394). -/
def get_patient_appointments_result (exec : Except String (List A)) :
    List A × Option String :=
  match exec with
  | Except.ok rows => (rows, none)
  | Except.error e => ([], some ("Error searching for patient: " ++ e))

/-- The `try`/`except` around the patient search query
(src/services/patient_service.py lines 61-66). -/
def search_patient_result (exec : Except String (List A)) :
    List A × Option String :=
  match exec with
  | Except.ok rows => (rows, none)
  | Except.error e => ([], some ("Error searching for patient: " ++ e))

/-- `get_patient_registration_history` (src/services/patient_service.py lines
98-149): the person-id lookup query at lines 111-116 executes OUTSIDE any
`try` block, so its exception propagates to the caller; an empty lookup
returns an empty frame; only the history query (lines 144-149) is guarded,
surfacing `st.warning` and an empty frame on failure. -/
def get_patient_registration_history_result
    (lookup : Except String (List String))
    (hist : String → Except String (List A)) :
    Except String (List A × Option String) :=
  match lookup with
  | Except.error e => Except.error e
  | Except.ok [] => Except.ok ([], none)
  | Except.ok (person_id :: _) =>
    match hist person_id with
    | Except.ok rows => Except.ok (rows, none)
    | Except.error e =>
      Except.ok ([], some ("Could not load registration history: " ++ e))

/-- `get_patient_ltc_summary` (src/services/patient_service.py lines 151-199):
same two-query shape — unguarded person-id lookup, guarded register query. -/
def get_patient_ltc_summary_result
    (lookup : Except String (List String))
    (reg : String → Except String (List A)) :
    Except String (List A × Option String) :=
  match lookup with
  | Except.error e => Except.error e
  | Except.ok [] => Except.ok ([], none)
  | Except.ok (person_id :: _) =>
    match reg person_id with
    | Except.ok rows => Except.ok (rows, none)
    | Except.error e =>
      Except.ok ([], some ("Could not load LTC summary: " ++ e))

/-- **C8 counterexample.** A failure of the person-id lookup inside
`get_patient_registration_history` is not caught anywhere: the caller sees
the propagated exception, not an empty result. -/
theorem registration_history_propagates_lookup_failure :
    get_patient_registration_history_result (Except.error "connection lost")
        (fun _ => Except.ok ([] : List Int)) =
      Except.error "connection lost" := rfl

/-- **C8 (amended).** Each retrieval operation catches a failure of its main
list query at the point of execution and hands the caller an empty result
plus a surfaced warning/error message — except the person-id lookup
pre-queries of the registration-history and condition-register retrievals,
which run outside the `try` block, so a throw there propagates to the
caller. -/
theorem query_failures_yield_empty_results :
    (∀ (e : String),
      get_patient_observations_result (Except.error e) =
        (([] : List Int), some ("Error loading observations: " ++ e))) ∧
    (∀ (e : String),
      get_patient_medications_result (Except.error e) =
        (([] : List Int), some ("Error loading medications: " ++ e))) ∧
    (∀ (e : String),
      get_patient_appointments_result (Except.error e) =
        (([] : List Int), some ("Error searching for patient: " ++ e))) ∧
    (∀ (e : String),
      search_patient_result (Except.error e) =
        (([] : List Int), some ("Error searching for patient: " ++ e))) ∧
    (∀ (person_id e : String),
      get_patient_registration_history_result (Except.ok [person_id])
          (fun _ => (Except.error e : Except String (List Int))) =
        Except.ok ([], some ("Could not load registration history: " ++ e))) ∧
    (∀ (person_id e : String),
      get_patient_ltc_summary_result (Except.ok [person_id])
          (fun _ => (Except.error e : Except String (List Int))) =
        Except.ok ([], some ("Could not load LTC summary: " ++ e))) ∧
    (∀ (e : String),
      get_patient_registration_history_result (Except.error e)
          (fun _ => Except.ok ([] : List Int)) =
        Except.error e) := by
  exact ⟨fun e => rfl, fun e => rfl, fun e => rfl, fun e => rfl,
    fun p e => rfl, fun p e => rfl, fun e => rfl⟩

end Olids

